/-
Verification of the build/environment orchestration engine of the
PythonToEXE repository: a shallow embedding in Lean 4 of the command
builder (`app/core/builder.py`, `BuildWorker._build_command`), the process
runners (`app/utils/shell.py`), the build worker run loop
(`BuildWorker.run`), the venv install operation
(`app/core/venv_manager.py`, `VenvWorker._install_requirements`) and the
plugin execution pipeline (`app/core/plugin_loader.py`).

Python strings are modelled by `String`; Python string helpers
(`str.strip`, `str.rstrip`, `str.split`, single-character
`str.replace`) are given explicit executable models.  External effects
(the filesystem, the spawned process) are passed in as explicit
parameters: a `fileExists` oracle and a `ProcBehavior` describing what
the spawned process does.  Callback effects are modelled by explicit
state accumulation.
-/

import Mathlib

namespace PythonToEXE

/-! ## Python string helpers -/

/-- Model of Python `str.strip()`: drop leading and trailing whitespace. -/
def pyStrip (s : String) : String :=
  ⟨(((s.data.dropWhile Char.isWhitespace).reverse.dropWhile Char.isWhitespace).reverse)⟩

/-- Model of Python `str.rstrip()`: drop trailing whitespace. -/
def pyRstrip (s : String) : String :=
  ⟨((s.data.reverse.dropWhile Char.isWhitespace).reverse)⟩

/-- Tokenizer for Python `str.split()` with no argument: `acc` holds the
reversed characters of the token currently being read. -/
def pySplitChars : List Char → List Char → List String
  | [], acc => if acc.isEmpty then [] else [⟨acc.reverse⟩]
  | c :: cs, acc =>
      if c.isWhitespace then
        if acc.isEmpty then pySplitChars cs []
        else ⟨acc.reverse⟩ :: pySplitChars cs []
      else pySplitChars cs (c :: acc)

/-- Model of Python `str.split()` with no argument: split on whitespace
runs, discarding empty tokens. -/
def pySplit (s : String) : List String :=
  pySplitChars s.data []

/-- Model of Python `str.replace(old, new)` where `old` and `new` are
single characters: replace every occurrence of `c` by `r`. -/
def replaceChar (c r : Char) (s : String) : String :=
  ⟨s.data.map (fun x => if x = c then r else x)⟩

/-! ## Data model (`app/core/config_manager.py`, `app/utils/shell.py`,
`app/core/builder.py`) -/

/-- `BuildConfig` dataclass from `app/core/config_manager.py`. -/
structure BuildConfig where
  script_path : String := ""
  requirements_path : String := ""
  output_dir : String := ""
  icon_path : String := ""
  app_name : String := ""
  one_file : Bool := true
  console_mode : Bool := true
  clean_build : Bool := true
  hidden_imports : List String := []
  exclude_modules : List String := []
  data_files : List String := []
  additional_args : String := ""

/-- `ProcessResult` dataclass from `app/utils/shell.py`. -/
structure ProcessResult where
  return_code : Int
  stdout : String
  stderr : String
  success : Bool
deriving DecidableEq, Repr

/-- The environment the builder runs in: interpreter path, platform flag
(`sys.platform == 'win32'`) and a filesystem-existence oracle
(`Path(...).exists()`). -/
structure BuildEnv where
  python_path : String
  isWin32 : Bool
  fileExists : String → Bool

/-! ## Command Builder (`BuildWorker._build_command`) -/

/-- PyInstaller data-file path separator: `';' if sys.platform == 'win32'
else ':'` (builder.py line 104). -/
def pathSep (isWin32 : Bool) : Char :=
  if isWin32 then ';' else ':'

/-- One-file vs one-directory section (builder.py lines 63-67). -/
def modeSection (one_file : Bool) : List String :=
  if one_file then ["--onefile"] else ["--onedir"]

/-- Console-mode section (builder.py lines 69-71). -/
def consoleSection (console_mode : Bool) : List String :=
  if console_mode then [] else ["--noconsole"]

/-- Clean-build section (builder.py lines 73-75). -/
def cleanSection (clean_build : Bool) : List String :=
  if clean_build then ["--clean"] else []

/-- Output-directory section (builder.py lines 80-82). -/
def distSection (output_dir : String) : List String :=
  if output_dir ≠ "" then ["--distpath", output_dir] else []

/-- Application-name section (builder.py lines 84-86). -/
def nameSection (app_name : String) : List String :=
  if app_name ≠ "" then ["--name", app_name] else []

/-- Icon section (builder.py lines 88-90): emitted only when the path is
non-empty and the file exists. -/
def iconSection (fileExists : String → Bool) (icon_path : String) : List String :=
  if icon_path ≠ "" ∧ fileExists icon_path = true then ["--icon", icon_path] else []

/-- Hidden-imports section (builder.py lines 92-95). -/
def hiddenSection (hidden_imports : List String) : List String :=
  hidden_imports.flatMap
    (fun h => if pyStrip h ≠ "" then ["--hidden-import", pyStrip h] else [])

/-- Exclude-modules section (builder.py lines 97-100). -/
def excludeSection (exclude_modules : List String) : List String :=
  exclude_modules.flatMap
    (fun m => if pyStrip m ≠ "" then ["--exclude-module", pyStrip m] else [])

/-- Data-files section (builder.py lines 102-109): each non-blank entry is
stripped and its `';'` separators rewritten to the platform separator. -/
def dataFilesSection (isWin32 : Bool) (data_files : List String) : List String :=
  data_files.flatMap
    (fun d => if pyStrip d ≠ ""
      then ["--add-data", replaceChar ';' (pathSep isWin32) (pyStrip d)]
      else [])

/-- Extra-arguments section (builder.py lines 111-114): whitespace
tokenisation of the raw string. -/
def extraSection (additional_args : String) : List String :=
  if additional_args ≠ "" then pySplit additional_args else []

/-- `BuildWorker._build_command` (builder.py lines 54-119): the ordered
PyInstaller argument vector, or a `ValueError` message when the script
path is empty. -/
def buildCommand (env : BuildEnv) (config : BuildConfig) : Except String (List String) :=
  if config.script_path = "" then
    .error "Script path is required"
  else
    .ok ([env.python_path, "-m", "PyInstaller"]
      ++ modeSection config.one_file
      ++ consoleSection config.console_mode
      ++ cleanSection config.clean_build
      ++ ["--noconfirm"]
      ++ distSection config.output_dir
      ++ nameSection config.app_name
      ++ iconSection env.fileExists config.icon_path
      ++ hiddenSection config.hidden_imports
      ++ excludeSection config.exclude_modules
      ++ dataFilesSection env.isWin32 config.data_files
      ++ extraSection config.additional_args
      ++ [config.script_path])

/-! ## Process Runner (`app/utils/shell.py`) -/

/-- What the spawned process does in a streaming run: either `Popen`
raises (spawn failure), or the process emits a list of raw output lines
(as returned by `readline`, i.e. newline-terminated and non-empty) and
then exits with a code. -/
inductive ProcBehavior where
  | spawnFail (msg : String)
  | runs (lines : List String) (exitCode : Int)

/-- Whether a streaming run actually spawned an OS process. -/
def ProcBehavior.spawns : ProcBehavior → Bool
  | .spawnFail _ => false
  | .runs _ _ => true

/-- `run_command_stream` (shell.py lines 63-102).  The caller-supplied
`output_callback` side effect is modelled as a state transformer over
`σ`; the function returns the final callback state together with the
`ProcessResult`.  Each non-empty line is appended raw to the accumulated
stdout and handed to the callback with trailing whitespace stripped
(`line.rstrip()`); standard error is merged into stdout, so the result's
`stderr` is `""`.  A spawn exception yields the failure result of the
`except` branch. -/
def run_command_stream {σ : Type} (output_callback : σ → String → σ) (s0 : σ)
    (behavior : ProcBehavior) : σ × ProcessResult :=
  match behavior with
  | .spawnFail msg => (s0, ⟨-1, "", msg, false⟩)
  | .runs lines code =>
      let step := fun (acc : σ × List String) (line : String) =>
        if line ≠ "" then (output_callback acc.1 (pyRstrip line), acc.2 ++ [line])
        else acc
      let fin := lines.foldl step (s0, [])
      (fin.1, ⟨code, String.join fin.2, "", code == 0⟩)

/-- What the process does in a buffered run: `subprocess.run` raises on
spawn (`Exception` branch), times out (`TimeoutExpired` branch, carrying
the partial stdout `e.stdout`), or completes with an exit code and
captured stdout/stderr. -/
inductive BufferedBehavior where
  | spawnFail (msg : String)
  | timedOut (partialOut : Option String)
  | completed (code : Int) (out err : String)

/-- Rendering of the `timeout` parameter inside the Python f-string
`f"Command timed out after {timeout} seconds"`. -/
def pyFormatOptNat : Option Nat → String
  | some n => toString n
  | none => "None"

/-- `run_command` (shell.py lines 24-60): buffered run returning a
`ProcessResult` in every case — completion, timeout (sentinel exit code
`-1`, descriptive stderr, partial stdout defaulted to `""` by
`e.stdout or ""`), or spawn failure (exit code `-1`, stderr carrying the
exception description). -/
def run_command (timeout : Option Nat) (behavior : BufferedBehavior) : ProcessResult :=
  match behavior with
  | .completed code out err => ⟨code, out, err, code == 0⟩
  | .timedOut partialOut =>
      ⟨-1, partialOut.getD "",
        "Command timed out after " ++ pyFormatOptNat timeout ++ " seconds", false⟩
  | .spawnFail msg => ⟨-1, "", msg, false⟩

/-! ## Build Supervisor (`BuildWorker.run`, builder.py lines 121-180) -/

/-- `BuildStatus` enum from builder.py. -/
inductive BuildStatus where
  | idle | running | success | failed | cancelled
deriving DecidableEq, Repr

/-- `BuildResult` dataclass from builder.py; `build_time` (elapsed
wall-clock seconds) is modelled as an abstract `Nat`. -/
structure BuildResult where
  status : BuildStatus
  output_path : Option String := none
  error_message : String := ""
  build_time : Nat := 0
deriving DecidableEq, Repr

/-- Observable outcome of one `BuildWorker.run`: the single emitted
terminal `BuildResult`, the lines emitted through `output_line`, and
whether an OS process was spawned. -/
structure RunOutcome where
  result : BuildResult
  emitted : List String
  spawned : Bool
deriving DecidableEq, Repr

/-- `BuildWorker.run` (builder.py lines 121-180).  `cancelledDuring` is
the value of the cooperative `_cancelled` flag observed by the output
callback during draining, and `cancelledAtCheck` its value at the
post-drain check on line 150 (the flag only ever goes from `false` to
`true`).  `elapsed` abstracts the measured wall-clock time.  A
`ValueError` from `_build_command` is caught by the `except` branch and
reported as a `Failed` result carrying `str(e)`; otherwise the streaming
run is performed, the cancellation flag decides a `Cancelled` result,
and else success/failure of the process result decides the terminal
`BuildResult`, with `error_message = result.stderr or "Build failed"`. -/
def workerRun (env : BuildEnv) (config : BuildConfig) (behavior : ProcBehavior)
    (cancelledDuring cancelledAtCheck : Bool) (elapsed : Nat) : RunOutcome :=
  match buildCommand env config with
  | .error e => ⟨⟨.failed, none, e, elapsed⟩, [], false⟩
  | .ok cmd =>
      let header := ">>> " ++ String.intercalate " " cmd ++ "\n"
      let out := run_command_stream
        (fun (acc : List String) (line : String) =>
          if cancelledDuring then acc else acc ++ [line])
        [] behavior
      let emitted := header :: out.1
      let result := out.2
      if cancelledAtCheck then
        ⟨⟨.cancelled, none, "", elapsed⟩, emitted, behavior.spawns⟩
      else if result.success then
        ⟨⟨.success,
          (if config.output_dir ≠ "" then some config.output_dir else none),
          "", elapsed⟩, emitted, behavior.spawns⟩
      else
        ⟨⟨.failed, none,
          (if result.stderr ≠ "" then result.stderr else "Build failed"),
          elapsed⟩, emitted, behavior.spawns⟩

/-! ## Environment Orchestrator (`app/core/venv_manager.py`) -/

/-- Outcome of one `VenvWorker` operation: the `operation_finished`
signal payload `(success, message)` plus whether a process was
spawned. -/
structure OpOutcome where
  success : Bool
  message : String
  spawned : Bool
deriving DecidableEq, Repr

/-- The pip executable path by platform convention (venv_manager.py
lines 82-85): `venv_path / "Scripts" / "pip.exe"` on Windows,
`venv_path / "bin" / "pip"` otherwise; `pathlib` joining is modelled
with `/`. -/
def pipPath (isWin32 : Bool) (venv_path : String) : String :=
  if isWin32 then venv_path ++ "/Scripts/pip.exe" else venv_path ++ "/bin/pip"

/-- `VenvWorker._install_requirements` (venv_manager.py lines 72-107):
fails fast when the requirements path is `None` or does not exist, then
when the venv's pip executable does not exist; otherwise streams the
install command and reports its success. -/
def installRequirements (isWin32 : Bool) (fileExists : String → Bool)
    (venv_path : String) (requirements_path : Option String)
    (behavior : ProcBehavior) : OpOutcome :=
  match requirements_path with
  | none => ⟨false, "Requirements file not found", false⟩
  | some rp =>
    if fileExists rp = false then
      ⟨false, "Requirements file not found", false⟩
    else if fileExists (pipPath isWin32 venv_path) = false then
      ⟨false, "Pip not found in virtual environment", false⟩
    else
      let result := (run_command_stream
        (fun (acc : List String) (line : String) => acc ++ [line]) [] behavior).2
      if result.success then ⟨true, "Requirements installed", true⟩
      else ⟨false, "Failed: " ++ result.stderr, true⟩

/-! ## Plugin Registry (`app/core/plugin_loader.py`) -/

/-- What a plugin's `execute(context)` does: return a boolean, or raise
an exception with a message. -/
inductive ExecBehavior where
  | returns (b : Bool)
  | throws (msg : String)
deriving DecidableEq, Repr

/-- A loaded plugin instance: its declared `NAME`, whether it is an
instance of `PostBuildPlugin` (the `isinstance` check used by
`get_post_build_plugins`), and the behaviour of its `execute` method.
The context argument is irrelevant to the claims and omitted. -/
structure Plugin where
  name : String
  isPostBuild : Bool
  exec : ExecBehavior
deriving DecidableEq, Repr

/-- `PluginInfo` view relevant to execution, as produced by
`PluginBase.get_info` (plugin_loader.py lines 55-63): `get_info` never
passes `enabled`, so the dataclass default `True` always applies. -/
structure PluginInfo where
  name : String
  enabled : Bool
deriving DecidableEq, Repr

/-- `PluginBase.get_info`: the `enabled` field is always the dataclass
default `true`. -/
def Plugin.get_info (p : Plugin) : PluginInfo :=
  ⟨p.name, true⟩

/-- The loader's `self.plugins` dict, modelled as its values in
insertion order; dict keys are the plugin names, so names are unique. -/
def pluginTable := List Plugin

/-- `PluginLoader.get_post_build_plugins` (plugin_loader.py lines
169-171): the registered plugins that are `PostBuildPlugin`
instances, in table order. -/
def get_post_build_plugins (plugins : List Plugin) : List Plugin :=
  plugins.filter (fun p => p.isPostBuild)

/-- `PluginLoader.execute_plugin` (plugin_loader.py lines 173-182):
look the plugin up by name; if found, run its `execute`, converting an
exception into `False`; if absent return `False`.  The first component
records whether a plugin's `execute` was actually invoked. -/
def execute_plugin (plugins : List Plugin) (name : String) : Bool × Bool :=
  match plugins.find? (fun p => p.name == name) with
  | some p =>
      match p.exec with
      | .returns b => (true, b)
      | .throws _ => (true, false)
  | none => (false, false)

/-- Python dict assignment `d[k] = v`: overwrite in place when the key
is present, else append, preserving insertion order. -/
def dictInsert (d : List (String × Bool)) (k : String) (v : Bool) :
    List (String × Bool) :=
  if d.any (fun e => e.1 == k) then
    d.map (fun e => if e.1 == k then (k, v) else e)
  else d ++ [(k, v)]

/-- `PluginLoader.execute_post_build_plugins` (plugin_loader.py lines
184-191): run every post-build plugin whose `get_info().enabled` is
true, sequentially in table order, collecting `results[NAME] =
execute_plugin(NAME, context)`.  Returns the ordered list of plugins
whose `execute` was invoked together with the result dict. -/
def execute_post_build_plugins (plugins : List Plugin) :
    List String × List (String × Bool) :=
  (get_post_build_plugins plugins).foldl
    (fun acc p =>
      if (Plugin.get_info p).enabled then
        let r := execute_plugin plugins p.name
        ((if r.1 then acc.1 ++ [p.name] else acc.1),
          dictInsert acc.2 p.name r.2)
      else acc)
    ([], [])

/-! ## Concrete fixtures shared by witnesses -/

/-- The example configuration of claim C1: all other fields keep their
dataclass defaults. -/
def c1Config : BuildConfig :=
  { script_path := "app.py", one_file := true, console_mode := false,
    clean_build := true, output_dir := "out" }

/-- A concrete build environment for witnesses: posix platform, no file
exists. -/
def env0 : BuildEnv := ⟨"py", false, fun _ => false⟩

/-! ## Claims -/

/-- C1: for the config `{script_path := "app.py", one_file := true,
console_mode := false, clean_build := true, output_dir := "out"}` (all
other fields default), the built argument vector ends with the exact
suffix `["--onefile", "--noconsole", "--clean", "--noconfirm",
"--distpath", "out", "app.py"]`, in that order, with the script path as
the final element. -/
theorem c1_example_suffix (env : BuildEnv) :
    ∃ l, buildCommand env c1Config = .ok l ∧
      ["--onefile", "--noconsole", "--clean", "--noconfirm",
        "--distpath", "out", "app.py"] <:+ l ∧
      l.getLast? = some "app.py" := by
  exact ⟨_, rfl, ⟨[env.python_path, "-m", "PyInstaller"], rfl⟩, rfl⟩

/-- Witness for C1 at the concrete environment `env0`. -/
theorem c1_example_suffix_witness :
    ∃ l, buildCommand env0 c1Config = .ok l ∧
      ["--onefile", "--noconsole", "--clean", "--noconfirm",
        "--distpath", "out", "app.py"] <:+ l ∧
      l.getLast? = some "app.py" :=
  c1_example_suffix env0

/-- C4: for every config with empty `script_path`, `_build_command`
fails with the configuration error before producing a vector, the run
spawns no process, and the single terminal `BuildResult` is `Failed`
carrying the error description. -/
theorem c4_empty_script (env : BuildEnv) (config : BuildConfig)
    (behavior : ProcBehavior) (cD cC : Bool) (t : Nat)
    (h : config.script_path = "") :
    buildCommand env config = .error "Script path is required" ∧
    (workerRun env config behavior cD cC t).spawned = false ∧
    (workerRun env config behavior cD cC t).result.status = .failed ∧
    (workerRun env config behavior cD cC t).result.error_message =
      "Script path is required" := by
  have hb : buildCommand env config = .error "Script path is required" := by
    simp [buildCommand, h]
  refine ⟨hb, ?_, ?_, ?_⟩ <;> simp [workerRun, hb]

/-- Witness for C4: the default config has an empty script path. -/
theorem c4_empty_script_witness :
    buildCommand env0 {} = .error "Script path is required" ∧
    (workerRun env0 {} (.runs [] 0) false false 0).spawned = false ∧
    (workerRun env0 {} (.runs [] 0) false false 0).result.status = .failed ∧
    (workerRun env0 {} (.runs [] 0) false false 0).result.error_message =
      "Script path is required" :=
  c4_empty_script env0 {} (.runs [] 0) false false 0 rfl

/-- C3: whenever the cancellation flag is set by the time output
draining finishes (the post-drain check), the single terminal
`BuildResult` has status `Cancelled` — never `Success` or `Failed` —
regardless of the process behaviour and its exit code. -/
theorem c3_cancelled_terminal (env : BuildEnv) (config : BuildConfig)
    (behavior : ProcBehavior) (cD : Bool) (t : Nat)
    (h : config.script_path ≠ "") :
    (workerRun env config behavior cD true t).result.status = .cancelled := by
  simp [workerRun, buildCommand, h]

/-- Witness for C3 at a concrete run whose process exited 0. -/
theorem c3_cancelled_terminal_witness :
    c1Config.script_path ≠ "" ∧
    (workerRun env0 c1Config (.runs ["x\n"] 0) false true 7).result.status =
      .cancelled :=
  ⟨by decide, c3_cancelled_terminal env0 c1Config (.runs ["x\n"] 0) false 7
    (by decide)⟩

/-- C7: a buffered run converts a spawn failure into a failure
`ProcessResult` carrying the failure description, and a timeout into a
distinguished failure `ProcessResult` with sentinel exit code `-1` and
a stderr message describing the timeout; neither case raises. -/
theorem c7_buffered_failures (timeout : Option Nat) (msg : String)
    (t : Nat) (pOut : Option String) :
    run_command timeout (.spawnFail msg) = ⟨-1, "", msg, false⟩ ∧
    run_command (some t) (.timedOut pOut) =
      ⟨-1, pOut.getD "",
        "Command timed out after " ++ toString t ++ " seconds", false⟩ := by
  constructor <;> rfl

/-- Witness for C7 at concrete inputs. -/
theorem c7_buffered_failures_witness :
    run_command none (.spawnFail "No such file or directory") =
      ⟨-1, "", "No such file or directory", false⟩ ∧
    run_command (some 30) (.timedOut none) =
      ⟨-1, "", "Command timed out after 30 seconds", false⟩ :=
  c7_buffered_failures none "No such file or directory" 30 none

/-- C8: the install operation finishes immediately with
`(false, "Requirements file not found")` and spawns no process when the
manifest path is missing or nonexistent, and fails fast with the
pip-not-found message without running the install when the manifest
exists but the venv's pip executable is absent. -/
theorem c8_install_fail_fast (isWin32 : Bool) (fe1 fe2 fe3 : String → Bool)
    (venv p q : String) (b1 b2 b3 : ProcBehavior)
    (h1 : fe1 p = false)
    (h2 : fe2 q = true) (h3 : fe2 (pipPath isWin32 venv) = false) :
    installRequirements isWin32 fe1 venv (some p) b1 =
      ⟨false, "Requirements file not found", false⟩ ∧
    installRequirements isWin32 fe3 venv none b3 =
      ⟨false, "Requirements file not found", false⟩ ∧
    installRequirements isWin32 fe2 venv (some q) b2 =
      ⟨false, "Pip not found in virtual environment", false⟩ := by
  refine ⟨?_, rfl, ?_⟩ <;> simp [installRequirements, h1, h2, h3]

/-- Witness for C8 at concrete oracles and paths. -/
theorem c8_install_fail_fast_witness :
    installRequirements false (fun _ => false) "v" (some "req.txt") (.runs [] 0) =
      ⟨false, "Requirements file not found", false⟩ ∧
    installRequirements false (fun _ => false) "v" none (.runs [] 0) =
      ⟨false, "Requirements file not found", false⟩ ∧
    installRequirements false (fun s => s == "req.txt") "v" (some "req.txt")
        (.runs [] 0) =
      ⟨false, "Pip not found in virtual environment", false⟩ :=
  c8_install_fail_fast false (fun _ => false) (fun s => s == "req.txt")
    (fun _ => false) "v" "req.txt" "req.txt" (.runs [] 0) (.runs [] 0)
    (.runs [] 0) rfl (by decide) (by decide)

/-- The streaming read loop with the collecting callback: over lines that
are all non-empty, the callback state accumulates the rstripped lines in
emission order and the raw lines are all kept. -/
theorem stream_foldl_spec (lines : List String) (s k : List String)
    (h : ∀ l ∈ lines, l ≠ "") :
    lines.foldl
      (fun (acc : List String × List String) (line : String) =>
        if line ≠ "" then (acc.1 ++ [pyRstrip line], acc.2 ++ [line]) else acc)
      (s, k) = (s ++ lines.map pyRstrip, k ++ lines) := by
  induction lines generalizing s k with
  | nil => simp
  | cons a as ih =>
    have ha : a ≠ "" := h a (by simp)
    have has : ∀ l ∈ as, l ≠ "" := fun l hl => h l (by simp [hl])
    simp only [List.foldl_cons, if_pos ha, ih _ _ has, List.map_cons]
    simp

/-- C2 (amended): for a streaming run whose process emits N non-empty
lines and exits 0, the collecting consumer is invoked exactly N times,
once per line in emission order, each time with the line's trailing
whitespace (including the newline) stripped, and the single returned
`ProcessResult` is built from the accumulated raw output and exit code
0, with `success = true`. -/
theorem c2_stream_consumer_calls (lines : List String)
    (h : ∀ l ∈ lines, l ≠ "") :
    run_command_stream (fun (acc : List String) (l : String) => acc ++ [l]) []
        (.runs lines 0) =
      (lines.map pyRstrip, ⟨0, String.join lines, "", true⟩) ∧
    (lines.map pyRstrip).length = lines.length := by
  refine ⟨?_, by simp⟩
  simp only [run_command_stream]
  rw [stream_foldl_spec lines [] [] h]
  simp

/-- Witness for C2 at a concrete two-line run. -/
theorem c2_stream_consumer_calls_witness :
    run_command_stream (fun (acc : List String) (l : String) => acc ++ [l]) []
        (.runs ["hello\n", "world\n"] 0) =
      (["hello\n", "world\n"].map pyRstrip,
        ⟨0, String.join ["hello\n", "world\n"], "", true⟩) ∧
    (["hello\n", "world\n"].map pyRstrip).length =
      (["hello\n", "world\n"] : List String).length :=
  c2_stream_consumer_calls ["hello\n", "world\n"] (by decide)

/-- C2 counterexample: the claim as stated says the consumer receives
each line with only the trailing newline stripped; for the emitted line
`"a \n"` that would be `"a "`, but the code calls `line.rstrip()`,
which also strips the trailing space, so the consumer receives `"a"`. -/
theorem c2_newline_strip_counterexample :
    (run_command_stream (fun (acc : List String) (l : String) => acc ++ [l]) []
        (.runs ["a \n"] 0)).1 = ["a"] ∧
    (run_command_stream (fun (acc : List String) (l : String) => acc ++ [l]) []
        (.runs ["a \n"] 0)).1 ≠ ["a "] := by
  constructor <;> decide

/-- C10: every streaming run whose process was successfully spawned
returns a `ProcessResult` with empty stderr (stderr is merged into
stdout), so a build completing with a nonzero exit code always reports
the generic default `"Build failed"`, never the process's actual error
text. -/
theorem c10_stderr_empty_default_message {σ : Type} (callback : σ → String → σ)
    (s0 : σ) (env : BuildEnv) (config : BuildConfig) (lines : List String)
    (code : Int) (t : Nat)
    (hscript : config.script_path ≠ "") (hcode : code ≠ 0) :
    (run_command_stream callback s0 (.runs lines code)).2.stderr = "" ∧
    (workerRun env config (.runs lines code) false false t).result.status =
      .failed ∧
    (workerRun env config (.runs lines code) false false t).result.error_message =
      "Build failed" := by
  refine ⟨by simp [run_command_stream], ?_, ?_⟩ <;>
    simp [workerRun, buildCommand, hscript, run_command_stream, hcode]

/-- Witness for C10 at a concrete failing run. -/
theorem c10_stderr_empty_default_message_witness :
    (run_command_stream (fun (acc : List String) (l : String) => acc ++ [l]) []
        (.runs ["error: boom\n"] 1)).2.stderr = "" ∧
    (workerRun env0 c1Config (.runs ["error: boom\n"] 1) false false 4).result.status =
      .failed ∧
    (workerRun env0 c1Config (.runs ["error: boom\n"] 1) false false
        4).result.error_message = "Build failed" :=
  c10_stderr_empty_default_message (fun (acc : List String) l => acc ++ [l]) []
    env0 c1Config ["error: boom\n"] 1 4 (by decide) (by decide)

/-- `replaceChar` distributes over string append. -/
theorem replaceChar_append (c r : Char) (a b : String) :
    replaceChar c r (a ++ b) = replaceChar c r a ++ replaceChar c r b := by
  apply String.ext
  simp [replaceChar, String.data_append]

/-- `replaceChar` is the identity on strings not containing the
replaced character. -/
theorem replaceChar_of_not_mem (c r : Char) (s : String) (h : c ∉ s.data) :
    replaceChar c r s = s := by
  apply String.ext
  show s.data.map (fun x => if x = c then r else x) = s.data
  conv_rhs => rw [← List.map_id s.data]
  apply List.map_congr_left
  intro x hx
  exact if_neg (by rintro rfl; exact h hx)

/-- C5: a non-blank data-file entry stored as `src;dest` (a single `';'`
separating substrings that themselves contain no `';'`, with no
surrounding whitespace) is emitted as `--add-data` followed by the
stored string with that one `';'` replaced by the platform path-list
separator (`';'` on Windows, `':'` otherwise), with `src` and `dest`
unchanged. -/
theorem c5_data_file_separator (isWin32 : Bool) (src dest : String)
    (hsrc : ';' ∉ src.data) (hdest : ';' ∉ dest.data)
    (hstrip : pyStrip (src ++ ";" ++ dest) = src ++ ";" ++ dest) :
    dataFilesSection isWin32 [src ++ ";" ++ dest] =
      ["--add-data", src ++ (pathSep isWin32).toString ++ dest] := by
  have hmem : ';' ∈ (src ++ ";" ++ dest).data := by
    simp [String.data_append]
  have hne : (src ++ ";" ++ dest) ≠ "" := by
    intro hcontra
    rw [hcontra] at hmem
    simp at hmem
  have hsep : replaceChar ';' (pathSep isWin32) ((";" : String)) =
      (pathSep isWin32).toString := by
    apply String.ext
    show ([';'].map (fun x => if x = ';' then pathSep isWin32 else x)) =
      (pathSep isWin32).toString.data
    simp [Char.toString]
  have hrepl : replaceChar ';' (pathSep isWin32) (src ++ ";" ++ dest) =
      src ++ (pathSep isWin32).toString ++ dest := by
    rw [replaceChar_append, replaceChar_append,
      replaceChar_of_not_mem _ _ _ hsrc, replaceChar_of_not_mem _ _ _ hdest,
      hsep]
  simp [dataFilesSection, hstrip, hne, hrepl]

/-- Witness for C5: the entry `"a;b"` on a posix platform is emitted as
`--add-data a:b`. -/
theorem c5_data_file_separator_witness :
    dataFilesSection false ["a" ++ ";" ++ "b"] =
      ["--add-data", "a" ++ (pathSep false).toString ++ "b"] :=
  c5_data_file_separator false "a" "b" (by decide) (by decide) (by decide)

/-- C6: running the post-build pipeline over three registered enabled
post-build plugins where the second one's `execute` throws still invokes
the first and third; the returned name-to-boolean map has an entry for
each of the three plugins, with exactly one `false` entry — the
throwing plugin's. -/
theorem c6_plugin_isolation (n1 n2 n3 msg : String)
    (h12 : n1 ≠ n2) (h13 : n1 ≠ n3) (h23 : n2 ≠ n3) :
    execute_post_build_plugins
      [⟨n1, true, .returns true⟩, ⟨n2, true, .throws msg⟩,
        ⟨n3, true, .returns true⟩] =
      ([n1, n2, n3], [(n1, true), (n2, false), (n3, true)]) := by
  have b12 : (n1 == n2) = false := beq_false_of_ne h12
  have b21 : (n2 == n1) = false := beq_false_of_ne h12.symm
  have b13 : (n1 == n3) = false := beq_false_of_ne h13
  have b31 : (n3 == n1) = false := beq_false_of_ne h13.symm
  have b23 : (n2 == n3) = false := beq_false_of_ne h23
  have b32 : (n3 == n2) = false := beq_false_of_ne h23.symm
  simp [execute_post_build_plugins, get_post_build_plugins, execute_plugin,
    dictInsert, Plugin.get_info, List.find?, b12, b21, b13, b31, b23, b32,
    h12, h13, h23, h12.symm, h13.symm, h23.symm]

/-- Witness for C6 at three concretely named plugins. -/
theorem c6_plugin_isolation_witness :
    execute_post_build_plugins
      [⟨"zipper", true, .returns true⟩, ⟨"signer", true, .throws "boom"⟩,
        ⟨"notifier", true, .returns true⟩] =
      (["zipper", "signer", "notifier"],
        [("zipper", true), ("signer", false), ("notifier", true)]) :=
  c6_plugin_isolation "zipper" "signer" "notifier" "boom"
    (by decide) (by decide) (by decide)

/-- The caller-supplied strings that `_build_command` copies verbatim
into the argument vector: interpreter path, script path, output
directory, application name, icon path, trimmed hidden-import and
exclude-module entries, normalised data-file entries, and the
whitespace tokens of the extra-argument string. -/
def userStrings (env : BuildEnv) (config : BuildConfig) : List String :=
  [env.python_path, config.script_path, config.output_dir, config.app_name,
    config.icon_path]
  ++ config.hidden_imports.map pyStrip
  ++ config.exclude_modules.map pyStrip
  ++ config.data_files.map
      (fun d => replaceChar ';' (pathSep env.isWin32) (pyStrip d))
  ++ pySplit config.additional_args

/-- Every element of the hidden-imports section is the flag itself or a
trimmed entry. -/
theorem mem_hiddenSection {x : String} {hs : List String}
    (h : x ∈ hiddenSection hs) :
    x = "--hidden-import" ∨ x ∈ hs.map pyStrip := by
  rw [hiddenSection, List.mem_flatMap] at h
  obtain ⟨a, ha, hx⟩ := h
  split at hx
  · simp only [List.mem_cons, List.not_mem_nil, or_false] at hx
    rcases hx with rfl | rfl
    · exact Or.inl rfl
    · exact Or.inr (List.mem_map.mpr ⟨a, ha, rfl⟩)
  · cases hx

/-- Every element of the exclude-modules section is the flag itself or a
trimmed entry. -/
theorem mem_excludeSection {x : String} {ms : List String}
    (h : x ∈ excludeSection ms) :
    x = "--exclude-module" ∨ x ∈ ms.map pyStrip := by
  rw [excludeSection, List.mem_flatMap] at h
  obtain ⟨a, ha, hx⟩ := h
  split at hx
  · simp only [List.mem_cons, List.not_mem_nil, or_false] at hx
    rcases hx with rfl | rfl
    · exact Or.inl rfl
    · exact Or.inr (List.mem_map.mpr ⟨a, ha, rfl⟩)
  · cases hx

/-- Every element of the data-files section is the flag itself or a
normalised entry. -/
theorem mem_dataFilesSection {x : String} {w : Bool} {ds : List String}
    (h : x ∈ dataFilesSection w ds) :
    x = "--add-data" ∨
      x ∈ ds.map (fun d => replaceChar ';' (pathSep w) (pyStrip d)) := by
  rw [dataFilesSection, List.mem_flatMap] at h
  obtain ⟨a, ha, hx⟩ := h
  split at hx
  · simp only [List.mem_cons, List.not_mem_nil, or_false] at hx
    rcases hx with rfl | rfl
    · exact Or.inl rfl
    · exact Or.inr (List.mem_map.mpr ⟨a, ha, rfl⟩)
  · cases hx

/-- Every element of a built argument vector is a fixed flag, an element
of the output-mode section, or a caller-supplied string. -/
theorem mem_buildCommand_cases {env : BuildEnv} {config : BuildConfig}
    {l : List String} {x : String}
    (hok : buildCommand env config = .ok l) (hx : x ∈ l) :
    x ∈ (["-m", "PyInstaller", "--noconsole", "--clean", "--noconfirm",
      "--distpath", "--name", "--icon", "--hidden-import", "--exclude-module",
      "--add-data"] : List String) ∨
    x ∈ modeSection config.one_file ∨
    x ∈ userStrings env config := by
  have huser : ∀ y ∈ ([env.python_path, config.script_path, config.output_dir,
      config.app_name, config.icon_path] : List String),
      y ∈ userStrings env config := by
    intro y hy
    simp only [userStrings, List.mem_append]
    exact Or.inl (Or.inl (Or.inl (Or.inl hy)))
  rw [buildCommand] at hok
  split at hok
  · cases hok
  · injection hok with hl
    subst hl
    simp only [List.mem_append] at hx
    rcases hx with
      ((((((((((((h | h) | h) | h) | h) | h) | h) | h) | h) | h) | h) | h) | h)
    · simp only [List.mem_cons, List.not_mem_nil, or_false] at h
      rcases h with rfl | rfl | rfl
      · exact Or.inr (Or.inr (huser _ (by simp)))
      · exact Or.inl (by simp)
      · exact Or.inl (by simp)
    · exact Or.inr (Or.inl h)
    · rw [consoleSection] at h
      split at h
      · cases h
      · simp only [List.mem_cons, List.not_mem_nil, or_false] at h
        subst h
        exact Or.inl (by simp)
    · rw [cleanSection] at h
      split at h
      · simp only [List.mem_cons, List.not_mem_nil, or_false] at h
        subst h
        exact Or.inl (by simp)
      · cases h
    · simp only [List.mem_cons, List.not_mem_nil, or_false] at h
      subst h
      exact Or.inl (by simp)
    · rw [distSection] at h
      split at h
      · simp only [List.mem_cons, List.not_mem_nil, or_false] at h
        rcases h with rfl | rfl
        · exact Or.inl (by simp)
        · exact Or.inr (Or.inr (huser _ (by simp)))
      · cases h
    · rw [nameSection] at h
      split at h
      · simp only [List.mem_cons, List.not_mem_nil, or_false] at h
        rcases h with rfl | rfl
        · exact Or.inl (by simp)
        · exact Or.inr (Or.inr (huser _ (by simp)))
      · cases h
    · rw [iconSection] at h
      split at h
      · simp only [List.mem_cons, List.not_mem_nil, or_false] at h
        rcases h with rfl | rfl
        · exact Or.inl (by simp)
        · exact Or.inr (Or.inr (huser _ (by simp)))
      · cases h
    · rcases mem_hiddenSection h with rfl | h
      · exact Or.inl (by simp)
      · refine Or.inr (Or.inr ?_)
        simp only [userStrings, List.mem_append]
        exact Or.inl (Or.inl (Or.inl (Or.inr h)))
    · rcases mem_excludeSection h with rfl | h
      · exact Or.inl (by simp)
      · refine Or.inr (Or.inr ?_)
        simp only [userStrings, List.mem_append]
        exact Or.inl (Or.inl (Or.inr h))
    · rcases mem_dataFilesSection h with rfl | h
      · exact Or.inl (by simp)
      · refine Or.inr (Or.inr ?_)
        simp only [userStrings, List.mem_append]
        exact Or.inl (Or.inr h)
    · rw [extraSection] at h
      split at h
      · refine Or.inr (Or.inr ?_)
        simp only [userStrings, List.mem_append]
        exact Or.inr h
      · cases h
    · simp only [List.mem_cons, List.not_mem_nil, or_false] at h
      subst h
      exact Or.inr (Or.inr (huser _ (by simp)))

/-- C9 (amended): for every config with non-empty script path in which
no caller-supplied string (interpreter path, script path, output
directory, application name, icon path, trimmed hidden-import or
exclude-module entry, normalised data-file entry, or extra-argument
token) equals `--onefile` or `--onedir`: if `one_file` is true the
argument vector contains `--onefile` and not `--onedir`; if false it
contains `--onedir` and not `--onefile`. -/
theorem c9_mode_flags (env : BuildEnv) (config : BuildConfig)
    (hscript : config.script_path ≠ "")
    (h1 : "--onefile" ∉ userStrings env config)
    (h2 : "--onedir" ∉ userStrings env config) :
    ∃ l, buildCommand env config = .ok l ∧
      (config.one_file = true → "--onefile" ∈ l ∧ "--onedir" ∉ l) ∧
      (config.one_file = false → "--onedir" ∈ l ∧ "--onefile" ∉ l) := by
  rw [buildCommand, if_neg hscript]
  refine ⟨_, rfl, fun h1f => ⟨?_, ?_⟩, fun h0f => ⟨?_, ?_⟩⟩
  · simp [List.mem_append, modeSection, h1f]
  · intro hm
    rcases mem_buildCommand_cases (by rw [buildCommand, if_neg hscript]) hm with
      hf | hmode | hu
    · exact absurd hf (by decide)
    · rw [modeSection, h1f] at hmode
      simp at hmode
    · exact h2 hu
  · simp [List.mem_append, modeSection, h0f]
  · intro hm
    rcases mem_buildCommand_cases (by rw [buildCommand, if_neg hscript]) hm with
      hf | hmode | hu
    · exact absurd hf (by decide)
    · rw [modeSection, h0f] at hmode
      simp at hmode
    · exact h1 hu

/-- Witness for C9 at the concrete `c1Config` / `env0`. -/
theorem c9_mode_flags_witness :
    ∃ l, buildCommand env0 c1Config = .ok l ∧
      (c1Config.one_file = true → "--onefile" ∈ l ∧ "--onedir" ∉ l) ∧
      (c1Config.one_file = false → "--onedir" ∈ l ∧ "--onefile" ∉ l) :=
  c9_mode_flags env0 c1Config (by decide) (by decide) (by decide)

/-- C9 counterexample: the claim as stated quantifies over every config
with non-empty script path, but for `script_path := "--onedir"` with
`one_file := true` the built vector contains both `--onefile` and
`--onedir` (the script path is appended last), refuting "does not
contain `--onedir`". -/
theorem c9_mode_flags_counterexample :
    ∃ l, buildCommand env0 { script_path := "--onedir", one_file := true } =
        .ok l ∧ "--onefile" ∈ l ∧ "--onedir" ∈ l :=
  ⟨_, rfl, by decide, by decide⟩

end PythonToEXE
